import Mathlib

/-! Model of the ai-call-auditor-frontend client.

A shallow embedding of the single source file of the repository,
containing two page components:

* the upload page with its submit handler (upload two files, navigate to
  the review screen on success);
* the review page with its data-loading effect (three sequential GET
  fetches), its chat and search submit handlers, its timestamp-jump
  handler for the shared audio element, and a render gated on the
  loading and error state.

Network interaction is modelled by passing the would-be result of each
awaited fetch as an explicit argument; component state is passed
explicitly and every handler is a state-transition function returning
the state after the handler has fully settled. -/

namespace CallAuditor

/-- Result of an awaited fetch call whose body, when valid JSON, parses
to a value of type a.  The constructor netErr models the fetch promise
rejecting (network failure); resp ok body models an HTTP response whose
ok flag is true exactly for 2xx statuses, with body equal to none when
the response body is not valid JSON. -/
inductive HttpResult (α : Type) where
  | netErr : HttpResult α
  | resp (ok : Bool) (body : Option α) : HttpResult α
deriving DecidableEq, Repr

/-- Awaiting fetch and then res.json(): the combination throws (modelled
as none) on network error or malformed body, and yields the parsed body
otherwise.  The HTTP status flag is not consulted. -/
def HttpResult.json {α : Type} : HttpResult α → Option α
  | .netErr => none
  | .resp _ body => body

/-- JavaScript evaluation of field-or-default on an optional string
field: undefined and the empty string are both falsy in JavaScript, so
both select the default; any other string is kept. -/
def jsStringOr (field : Option String) (dflt : String) : String :=
  match field with
  | none => dflt
  | some s => if s = "" then dflt else s

/-- JavaScript falsiness of a trimmed string: the condition that guards
the chat and search submit handlers checks the negation of the trimmed
input, which is falsy exactly when the trimmed string is empty, that is,
exactly when every character of the input is whitespace. -/
def jsBlank (s : String) : Bool := s.data.all Char.isWhitespace

/-- Consumed fields of the JSON body of a successful upload response. -/
structure UploadBody where
  conversation_id : Option String
deriving DecidableEq, Repr

/-- State of the upload page: the two file inputs (a selected file is
modelled by its name; a File object is always truthy in JavaScript), the
loading flag, the inline error message, and the observable navigation
target (none while the page has not navigated away). -/
structure UploadState where
  audioFile : Option String
  pitchFile : Option String
  loading : Bool
  error : String
  navigatedTo : Option String
deriving DecidableEq, Repr

/-- Result of one run of the upload submit handler: the settled state,
plus whether a network call was issued during the run. -/
structure UploadOutcome where
  state : UploadState
  networkCalled : Bool
deriving DecidableEq, Repr

/-- The submit handler of the upload page.  It clears the error, then
validates that both files are selected (otherwise it sets a validation
message and returns without any network call); on valid input it POSTs
the form and either navigates to the review route keyed by the
conversation_id field of the body with the JavaScript fallback demo123,
or, when the response is a network error, has a non-2xx status, or has
a malformed JSON body, sets a generic error message.  The finally block
resets the loading flag. -/
def handleSubmit (s : UploadState) (res : HttpResult UploadBody) : UploadOutcome :=
  let s0 : UploadState := { s with error := "" }
  if s0.audioFile = none ∨ s0.pitchFile = none then
    ⟨{ s0 with error := "Please upload both audio and pitch files." }, false⟩
  else
    match res with
    | .netErr =>
        ⟨{ s0 with error := "Upload failed. Please try again.", loading := false }, true⟩
    | .resp ok body =>
        if ok = false then
          ⟨{ s0 with error := "Upload failed. Please try again.", loading := false }, true⟩
        else
          match body with
          | none =>
              ⟨{ s0 with error := "Upload failed. Please try again.", loading := false }, true⟩
          | some data =>
              ⟨{ s0 with
                  navigatedTo := some ("/review/" ++ jsStringOr data.conversation_id "demo123"),
                  loading := false }, true⟩

/-- One transcript line as consumed by the client. -/
structure TranscriptLine where
  text : String
deriving DecidableEq, Repr

/-- Consumed fields of the transcript GET response body. -/
structure TranscriptBody where
  transcript : Option (List TranscriptLine)
  audio_url : Option String
deriving DecidableEq, Repr

/-- Consumed fields of the pitch GET response body. -/
structure PitchBody where
  pitch : Option (List String)
deriving DecidableEq, Repr

/-- Consumed fields of the suggestions GET response body. -/
structure SuggestionsBody where
  suggestions : Option (List String)
deriving DecidableEq, Repr

/-- Consumed fields of the chat POST response body. -/
structure ChatBody where
  response : Option String
deriving DecidableEq, Repr

/-- One search result: a timestamp in seconds and an excerpt. -/
structure SearchResult where
  timestamp : Int
  text : String
deriving DecidableEq, Repr

/-- Consumed fields of the search POST response body. -/
structure SearchBody where
  results : Option (List SearchResult)
deriving DecidableEq, Repr

/-- Role of a chat history entry. -/
inductive ChatRole where
  | user : ChatRole
  | assistant : ChatRole
deriving DecidableEq, Repr

/-- One entry of the chat history. -/
structure ChatMessage where
  role : ChatRole
  content : String
deriving DecidableEq, Repr

/-- State of the review page: the three loaded collections and the audio
URL, the load flags, and the chat and search sub-states. -/
structure ReviewState where
  transcript : List TranscriptLine
  audioUrl : String
  pitch : List String
  suggestions : List String
  loading : Bool
  error : String
  chatInput : String
  chatHistory : List ChatMessage
  chatLoading : Bool
  searchInput : String
  searchResults : List SearchResult
  searchLoading : Bool
deriving DecidableEq, Repr

/-- The initial state of the review page as set by its state hooks. -/
def initialReviewState : ReviewState :=
  { transcript := []
    audioUrl := ""
    pitch := []
    suggestions := []
    loading := true
    error := ""
    chatInput := ""
    chatHistory := []
    chatLoading := false
    searchInput := ""
    searchResults := []
    searchLoading := false }

/-- The would-be results of the three review-data fetches, as the
environment would answer them were each issued. -/
structure ReviewResponses where
  transcriptRes : HttpResult TranscriptBody
  pitchRes : HttpResult PitchBody
  suggestionsRes : HttpResult SuggestionsBody
deriving DecidableEq, Repr

/-- Result of one run of the review-data load: the settled state, plus
one flag per fetch recording whether that fetch was actually issued
during the run. -/
structure FetchOutcome where
  state : ReviewState
  transcriptIssued : Bool
  pitchIssued : Bool
  suggestionsIssued : Bool
deriving DecidableEq, Repr

/-- The data-loading effect of the review page.  It sets the loading
flag and clears the error, then awaits the transcript fetch and its JSON
body, stores the transcript and audio URL fields (defaulting the absent
field), then awaits the pitch fetch likewise, then the suggestions
fetch: each subsequent fetch is issued only after the previous one has
completed and parsed, because each await is sequenced in one try block.
Any throw (network error or malformed body) jumps to the catch, which
sets the single generic error message; the finally block resets the
loading flag.  The ok flag of the responses is never consulted. -/
def fetchData (s : ReviewState) (r : ReviewResponses) : FetchOutcome :=
  let s0 : ReviewState := { s with loading := true, error := "" }
  match r.transcriptRes.json with
  | none =>
      ⟨{ s0 with error := "Failed to load review data.", loading := false },
        true, false, false⟩
  | some tData =>
      let s1 : ReviewState :=
        { s0 with
            transcript := tData.transcript.getD []
            audioUrl := jsStringOr tData.audio_url "" }
      match r.pitchRes.json with
      | none =>
          ⟨{ s1 with error := "Failed to load review data.", loading := false },
            true, true, false⟩
      | some pData =>
          let s2 : ReviewState := { s1 with pitch := pData.pitch.getD [] }
          match r.suggestionsRes.json with
          | none =>
              ⟨{ s2 with error := "Failed to load review data.", loading := false },
                true, true, true⟩
          | some sData =>
              ⟨{ s2 with suggestions := sData.suggestions.getD [], loading := false },
                true, true, true⟩

/-- What the content area of the review page displays when it is
rendered at all: the audio player presence, the displayed lines and
items, and whether each empty-content placeholder is shown. -/
structure ReviewContent where
  audioShown : Bool
  transcriptLines : List String
  noTranscriptPlaceholder : Bool
  pitchItems : List String
  noPitchPlaceholder : Bool
  suggestionItems : List String
  noSuggestionsPlaceholder : Bool
deriving DecidableEq, Repr

/-- The content area of the review page render: it is rendered only when
the state is neither loading nor in error; otherwise no content at all
is displayed.  Within the content, each of the three sections shows its
items when non-empty and its placeholder text when empty, and the audio
player is shown only for a truthy (non-empty) audio URL. -/
def reviewBody (s : ReviewState) : Option ReviewContent :=
  if s.loading = false ∧ s.error = "" then
    some
      { audioShown := decide (s.audioUrl ≠ "")
        transcriptLines := s.transcript.map (fun line => line.text)
        noTranscriptPlaceholder := decide (s.transcript.length = 0)
        pitchItems := s.pitch
        noPitchPlaceholder := decide (s.pitch.length = 0)
        suggestionItems := s.suggestions
        noSuggestionsPlaceholder := decide (s.suggestions.length = 0) }
  else none

/-- The inline error banner of the review page render: shown exactly
when the error message is non-empty. -/
def reviewErrorShown (s : ReviewState) : Option String :=
  if s.error = "" then none else some s.error

/-- First, synchronous phase of the chat submit handler: everything up
to the await.  Blank-after-trimming input returns immediately with the
state untouched and no call issued; otherwise the loading flag is set
and a user entry holding the (untrimmed) input is appended to the
history before the network call resolves. -/
def handleChatSubmitStart (s : ReviewState) : ReviewState × Bool :=
  if jsBlank s.chatInput then (s, false)
  else
    ({ s with
        chatLoading := true
        chatHistory := s.chatHistory ++ [⟨ChatRole.user, s.chatInput⟩] }, true)

/-- Second phase of the chat submit handler, run when the awaited call
settles: on a parsed body, append an assistant entry holding the
response field with the JavaScript fallback to the fixed text; on a
throw (network error or malformed body), append the fixed error entry.
The finally block clears the input and resets the loading flag. -/
def handleChatSubmitSettle (s : ReviewState) (res : HttpResult ChatBody) : ReviewState :=
  match res.json with
  | some data =>
      { s with
          chatHistory :=
            s.chatHistory ++ [⟨ChatRole.assistant, jsStringOr data.response "No response."⟩]
          chatInput := ""
          chatLoading := false }
  | none =>
      { s with
          chatHistory := s.chatHistory ++ [⟨ChatRole.assistant, "Error getting response."⟩]
          chatInput := ""
          chatLoading := false }

/-- The full chat submit handler: the synchronous phase followed, when a
call was issued, by the settling phase on the given result. -/
def handleChatSubmit (s : ReviewState) (res : HttpResult ChatBody) : ReviewState :=
  let p := handleChatSubmitStart s
  if p.2 then handleChatSubmitSettle p.1 res else p.1

/-- The search submit handler: blank-after-trimming input is a silent
no-op; otherwise the results collection is replaced wholesale by the
results field of a parsed body (defaulting the absent field to the empty
list) or by the empty list on any throw, and the finally block resets
the search loading flag.  No error state exists for search. -/
def handleSearchSubmit (s : ReviewState) (res : HttpResult SearchBody) : ReviewState :=
  if jsBlank s.searchInput then s
  else
    match res.json with
    | some data => { s with searchResults := data.results.getD [], searchLoading := false }
    | none => { s with searchResults := [], searchLoading := false }

/-- The shared audio element: its playback position and whether it is
playing. -/
structure AudioElement where
  currentTime : Int
  playing : Bool
deriving DecidableEq, Repr

/-- The timestamp-jump handler: when the audio ref is populated (the
element is mounted and sourced), set its playback position to the given
seconds and start playback; when the ref is null, do nothing. -/
def jumpToTimestamp (audioRef : Option AudioElement) (seconds : Int) :
    Option AudioElement :=
  match audioRef with
  | some a => some { a with currentTime := seconds, playing := true }
  | none => none

/-- Clicking the timestamp button of one search result invokes the
timestamp-jump handler at the timestamp of that result. -/
def activateSearchResult (audioRef : Option AudioElement) (r : SearchResult) :
    Option AudioElement :=
  jumpToTimestamp audioRef r.timestamp

/-- An upload-page state with both files selected, no pending error, and
no navigation performed yet. -/
def uploadReadyState : UploadState :=
  { audioFile := some "call.mp3"
    pitchFile := some "pitch.pdf"
    loading := false
    error := ""
    navigatedTo := none }

/-- Claim C1, counterexample.  The claim states that whenever the upload
POST succeeds with a 2xx status and a JSON body, the client navigates to
the review screen keyed by the conversation_id string of the body, with
the fallback demo123 only when that field is missing.  The code computes
the key with a JavaScript or-fallback, and the empty string is falsy in
JavaScript: with both files selected and a successful response whose
body carries conversation_id present and equal to the empty string, the
client navigates to the route keyed by demo123, not to the route keyed
by the empty string the claim requires. -/
theorem c1_counterexample :
    (handleSubmit uploadReadyState
        (HttpResult.resp true (some { conversation_id := some "" }))).state.navigatedTo
      = some "/review/demo123"
    ∧ some "/review/demo123" ≠ some ("/review/" ++ "") := by
  refine ⟨rfl, ?_⟩
  decide

/-- Claim C1, amended: for every upload submit with both files selected,
if the POST succeeds with a 2xx status and a JSON body, the client
navigates to the review screen keyed by the conversation_id string of
the body when that field is present and non-empty, and keyed by the
fixed fallback identifier demo123 when that field is missing or is the
empty string. -/
theorem c1_upload_navigation (s : UploadState) (body : UploadBody)
    (haudio : s.audioFile ≠ none) (hpitch : s.pitchFile ≠ none) :
    (∀ c : String, body.conversation_id = some c → c ≠ "" →
      (handleSubmit s (HttpResult.resp true (some body))).state.navigatedTo
        = some ("/review/" ++ c))
    ∧ ((body.conversation_id = none ∨ body.conversation_id = some "") →
      (handleSubmit s (HttpResult.resp true (some body))).state.navigatedTo
        = some "/review/demo123") := by
  constructor
  · intro c hc hne
    simp [handleSubmit, haudio, hpitch, jsStringOr, hc, hne]
  · rintro (h | h) <;> simp [handleSubmit, haudio, hpitch, jsStringOr, h]

/-- Witness for the amended claim C1 at a concrete state and response:
a successful upload answered with conversation_id abc navigates to the
review route keyed by abc. -/
theorem c1_upload_navigation_witness :
    (handleSubmit uploadReadyState
        (HttpResult.resp true (some { conversation_id := some "abc" }))).state.navigatedTo
      = some ("/review/" ++ "abc") :=
  (c1_upload_navigation uploadReadyState { conversation_id := some "abc" }
      (by decide) (by decide)).1 "abc" rfl (by decide)

/-- Claim C2: for every upload submit in which the audio file or the
pitch file (or both) is unselected, the client issues no network call
and sets the user-visible validation error message. -/
theorem c2_missing_file_validation (s : UploadState) (res : HttpResult UploadBody)
    (h : s.audioFile = none ∨ s.pitchFile = none) :
    (handleSubmit s res).networkCalled = false
    ∧ (handleSubmit s res).state.error = "Please upload both audio and pitch files." := by
  rcases h with h | h <;> simp [handleSubmit, h]

/-- An upload-page state with neither file selected. -/
def uploadEmptyState : UploadState :=
  { audioFile := none
    pitchFile := none
    loading := false
    error := ""
    navigatedTo := none }

/-- Witness for claim C2 at a concrete state: submitting with no file
selected issues no network call and sets the validation message. -/
theorem c2_missing_file_validation_witness :
    (handleSubmit uploadEmptyState HttpResult.netErr).networkCalled = false
    ∧ (handleSubmit uploadEmptyState HttpResult.netErr).state.error
        = "Please upload both audio and pitch files." :=
  c2_missing_file_validation uploadEmptyState HttpResult.netErr (Or.inl rfl)

/-- Claim C7: for every upload submit with both files selected whose
network call fails (non-2xx status, network failure, or malformed JSON
body), the client sets the user-visible generic error message, does not
navigate away from the upload screen, and leaves both selected files
unchanged so the user may retry. -/
theorem c7_upload_failure (s : UploadState) (res : HttpResult UploadBody)
    (haudio : s.audioFile ≠ none) (hpitch : s.pitchFile ≠ none)
    (hfail : res = HttpResult.netErr
      ∨ (∃ body, res = HttpResult.resp false body)
      ∨ (∃ ok, res = HttpResult.resp ok none)) :
    (handleSubmit s res).state.error = "Upload failed. Please try again."
    ∧ (handleSubmit s res).state.navigatedTo = s.navigatedTo
    ∧ (handleSubmit s res).state.audioFile = s.audioFile
    ∧ (handleSubmit s res).state.pitchFile = s.pitchFile := by
  rcases hfail with h | ⟨body, h⟩ | ⟨ok, h⟩ <;> subst h
  · simp [handleSubmit, haudio, hpitch]
  · simp [handleSubmit, haudio, hpitch]
  · cases ok <;> simp [handleSubmit, haudio, hpitch]

/-- Witness for claim C7 at a concrete state and failing response: a
network failure on upload sets the generic error, keeps the client on
the upload screen, and keeps both selected files. -/
theorem c7_upload_failure_witness :
    (handleSubmit uploadReadyState HttpResult.netErr).state.error
        = "Upload failed. Please try again."
    ∧ (handleSubmit uploadReadyState HttpResult.netErr).state.navigatedTo
        = uploadReadyState.navigatedTo
    ∧ (handleSubmit uploadReadyState HttpResult.netErr).state.audioFile
        = uploadReadyState.audioFile
    ∧ (handleSubmit uploadReadyState HttpResult.netErr).state.pitchFile
        = uploadReadyState.pitchFile :=
  c7_upload_failure uploadReadyState HttpResult.netErr (by decide) (by decide)
    (Or.inl rfl)

/-- Claim C3: for every review load in which exactly one of the three
fetches (transcript, pitch, suggestions) fails by network error or
malformed JSON while the other two succeed — for all permutations of
which one fails — the load ends with the single generic error message
set and with no content area displayed at all. -/
theorem c3_all_or_nothing (s : ReviewState) (r : ReviewResponses)
    (h : (r.transcriptRes.json = none
            ∧ r.pitchRes.json ≠ none ∧ r.suggestionsRes.json ≠ none)
       ∨ (r.transcriptRes.json ≠ none
            ∧ r.pitchRes.json = none ∧ r.suggestionsRes.json ≠ none)
       ∨ (r.transcriptRes.json ≠ none
            ∧ r.pitchRes.json ≠ none ∧ r.suggestionsRes.json = none)) :
    (fetchData s r).state.error = "Failed to load review data."
    ∧ reviewBody (fetchData s r).state = none := by
  rcases h with ⟨h1, h2, h3⟩ | ⟨h1, h2, h3⟩ | ⟨h1, h2, h3⟩
  · simp [fetchData, h1, reviewBody]
  · obtain ⟨t, ht⟩ := Option.ne_none_iff_exists'.mp h1
    simp [fetchData, ht, h2, reviewBody]
  · obtain ⟨t, ht⟩ := Option.ne_none_iff_exists'.mp h1
    obtain ⟨p, hp⟩ := Option.ne_none_iff_exists'.mp h2
    simp [fetchData, ht, hp, h3, reviewBody]

/-- A set of review-data responses in which the pitch fetch would fail
by network error while the transcript and suggestions fetches would
succeed. -/
def pitchFailingResponses : ReviewResponses :=
  { transcriptRes :=
      HttpResult.resp true
        (some { transcript := some [⟨"hi"⟩], audio_url := some "u" })
    pitchRes := HttpResult.netErr
    suggestionsRes := HttpResult.resp true (some { suggestions := some ["say X"] }) }

/-- Witness for claim C3 at a concrete load in which only the pitch
fetch fails: the generic load error is set and no content is shown. -/
theorem c3_all_or_nothing_witness :
    (fetchData initialReviewState pitchFailingResponses).state.error
        = "Failed to load review data."
    ∧ reviewBody (fetchData initialReviewState pitchFailingResponses).state = none :=
  c3_all_or_nothing initialReviewState pitchFailingResponses
    (Or.inr (Or.inl ⟨by decide, rfl, by decide⟩))

/-- A set of review-data responses in which the transcript fetch would
fail by network error while the other two fetches would succeed. -/
def transcriptFailingResponses : ReviewResponses :=
  { transcriptRes := HttpResult.netErr
    pitchRes := HttpResult.resp true (some { pitch := some ["step1"] })
    suggestionsRes := HttpResult.resp true (some { suggestions := some ["say X"] }) }

/-- Claim C8, counterexample.  The claim states that the three
review-data fetches are issued independently and mutually non-blocking,
with no issuance waiting for the completion of another fetch.  In the
code each fetch is awaited before the next one is issued, inside one try
block: when the transcript fetch fails by network error, the pitch and
suggestions fetches are never issued at all, so the issuance of each
later fetch does wait on — and is blocked by — the completion of the
earlier one. -/
theorem c8_counterexample :
    (fetchData initialReviewState transcriptFailingResponses).pitchIssued = false
    ∧ (fetchData initialReviewState transcriptFailingResponses).suggestionsIssued
        = false := by
  exact ⟨rfl, rfl⟩

/-- Claim C8, amended: the three review-data fetches are issued
sequentially in one try block — the transcript fetch is always issued,
the pitch fetch is issued exactly when the transcript fetch completed
with a parsed JSON body, and the suggestions fetch is issued exactly
when both earlier fetches completed with parsed JSON bodies; a failure
of an earlier fetch prevents every later fetch from being issued. -/
theorem c8_sequential_fetches (s : ReviewState) (r : ReviewResponses) :
    (fetchData s r).transcriptIssued = true
    ∧ ((fetchData s r).pitchIssued = true ↔ r.transcriptRes.json ≠ none)
    ∧ ((fetchData s r).suggestionsIssued = true
        ↔ (r.transcriptRes.json ≠ none ∧ r.pitchRes.json ≠ none)) := by
  rcases ht : r.transcriptRes.json with _ | t
  · simp [fetchData, ht]
  · rcases hp : r.pitchRes.json with _ | p
    · simp [fetchData, ht, hp]
    · rcases hs : r.suggestionsRes.json with _ | q <;> simp [fetchData, ht, hp, hs]

/-- Claim C10: the review-data load never inspects the HTTP status of
the three GET responses: for all three responses carrying a non-2xx
status but a body that still parses as JSON, the load is treated as a
success — no error message is set, the loading flag is cleared, each
consumed field is stored with absent fields defaulting to the empty
collection, and when every consumed field is absent the content area is
rendered with all three empty-content placeholders shown. -/
theorem c10_status_not_inspected (s : ReviewState)
    (ok1 ok2 ok3 : Bool) (tb : TranscriptBody) (pb : PitchBody) (sb : SuggestionsBody)
    (h1 : ok1 = false) (h2 : ok2 = false) (h3 : ok3 = false) :
    (fetchData s
        ⟨HttpResult.resp ok1 (some tb), HttpResult.resp ok2 (some pb),
          HttpResult.resp ok3 (some sb)⟩).state.error = ""
    ∧ (fetchData s
        ⟨HttpResult.resp ok1 (some tb), HttpResult.resp ok2 (some pb),
          HttpResult.resp ok3 (some sb)⟩).state.loading = false
    ∧ (fetchData s
        ⟨HttpResult.resp ok1 (some tb), HttpResult.resp ok2 (some pb),
          HttpResult.resp ok3 (some sb)⟩).state.transcript = tb.transcript.getD []
    ∧ (fetchData s
        ⟨HttpResult.resp ok1 (some tb), HttpResult.resp ok2 (some pb),
          HttpResult.resp ok3 (some sb)⟩).state.pitch = pb.pitch.getD []
    ∧ (fetchData s
        ⟨HttpResult.resp ok1 (some tb), HttpResult.resp ok2 (some pb),
          HttpResult.resp ok3 (some sb)⟩).state.suggestions = sb.suggestions.getD []
    ∧ (tb.transcript = none → tb.audio_url = none → pb.pitch = none →
        sb.suggestions = none →
        reviewBody (fetchData s
            ⟨HttpResult.resp ok1 (some tb), HttpResult.resp ok2 (some pb),
              HttpResult.resp ok3 (some sb)⟩).state
          = some
              { audioShown := false
                transcriptLines := []
                noTranscriptPlaceholder := true
                pitchItems := []
                noPitchPlaceholder := true
                suggestionItems := []
                noSuggestionsPlaceholder := true }) := by
  subst h1; subst h2; subst h3
  refine ⟨?_, ?_, ?_, ?_, ?_, ?_⟩
  · simp [fetchData, HttpResult.json]
  · simp [fetchData, HttpResult.json]
  · simp [fetchData, HttpResult.json]
  · simp [fetchData, HttpResult.json]
  · simp [fetchData, HttpResult.json]
  · intro ht ha hp hs
    simp [fetchData, HttpResult.json, reviewBody, ht, ha, hp, hs, jsStringOr]

/-- A set of review-data responses in which every response carries a
non-2xx status, a body that parses as JSON, and none of the consumed
fields. -/
def nonOkEmptyResponses : ReviewResponses :=
  { transcriptRes := HttpResult.resp false (some { transcript := none, audio_url := none })
    pitchRes := HttpResult.resp false (some { pitch := none })
    suggestionsRes := HttpResult.resp false (some { suggestions := none }) }

/-- Witness for claim C10 at a concrete load in which all three GET
responses carry a non-2xx status with an empty JSON object body: no
error is set, loading clears, all collections are empty, and the
placeholders render. -/
theorem c10_status_not_inspected_witness :
    (fetchData initialReviewState nonOkEmptyResponses).state.error = ""
    ∧ (fetchData initialReviewState nonOkEmptyResponses).state.loading = false
    ∧ (fetchData initialReviewState nonOkEmptyResponses).state.transcript
        = (none : Option (List TranscriptLine)).getD []
    ∧ (fetchData initialReviewState nonOkEmptyResponses).state.pitch
        = (none : Option (List String)).getD []
    ∧ (fetchData initialReviewState nonOkEmptyResponses).state.suggestions
        = (none : Option (List String)).getD []
    ∧ ((none : Option (List TranscriptLine)) = none → (none : Option String) = none →
        (none : Option (List String)) = none → (none : Option (List String)) = none →
        reviewBody (fetchData initialReviewState nonOkEmptyResponses).state
          = some
              { audioShown := false
                transcriptLines := []
                noTranscriptPlaceholder := true
                pitchItems := []
                noPitchPlaceholder := true
                suggestionItems := []
                noSuggestionsPlaceholder := true }) :=
  c10_status_not_inspected initialReviewState false false false
    { transcript := none, audio_url := none } { pitch := none } { suggestions := none }
    rfl rfl rfl

/-- A review-page state whose chat input holds the word hello. -/
def chatHelloState : ReviewState := { initialReviewState with chatInput := "hello" }

/-- Claim C4, counterexample.  The claim states that after a successful
chat call the appended assistant entry is the response field, with the
fixed fallback only when the field is absent.  The code computes the
entry with a JavaScript or-fallback, and the empty string is falsy in
JavaScript: on a successful response whose body carries the response
field present and equal to the empty string, the appended assistant
entry is the fixed fallback text, not the empty response field the claim
requires. -/
theorem c4_counterexample :
    (handleChatSubmit chatHelloState
        (HttpResult.resp true (some { response := some "" }))).chatHistory
      = [⟨ChatRole.user, "hello"⟩, ⟨ChatRole.assistant, "No response."⟩]
    ∧ ("No response." : String) ≠ "" := by
  refine ⟨rfl, by decide⟩

/-- Claim C4, amended: for every chat submit whose input is non-blank
after trimming, a user entry with that input is appended to the history
before the network call resolves, and after the call settles exactly one
assistant entry is appended: the response field on success when that
field is present and non-empty, the fixed fallback text when the field
is absent or the empty string, or the fixed error text on failure; the
earlier optimistic user entry is never removed, in any outcome. -/
theorem c4_chat_append (s : ReviewState) (res : HttpResult ChatBody)
    (h : jsBlank s.chatInput = false) :
    (handleChatSubmitStart s).1.chatHistory
        = s.chatHistory ++ [⟨ChatRole.user, s.chatInput⟩]
    ∧ (handleChatSubmitStart s).2 = true
    ∧ (handleChatSubmit s res).chatHistory
        = s.chatHistory
            ++ [⟨ChatRole.user, s.chatInput⟩,
                ⟨ChatRole.assistant,
                  match res.json with
                  | some d => jsStringOr d.response "No response."
                  | none => "Error getting response."⟩] := by
  refine ⟨?_, ?_, ?_⟩
  · simp [handleChatSubmitStart, h]
  · simp [handleChatSubmitStart, h]
  · rcases hj : res.json with _ | d <;>
      simp [handleChatSubmit, handleChatSubmitStart, handleChatSubmitSettle, h, hj]

/-- Witness for the amended claim C4 at a concrete state and successful
response: submitting hello appends the optimistic user entry and then
exactly one assistant entry holding the returned reply. -/
theorem c4_chat_append_witness :
    (handleChatSubmit chatHelloState
        (HttpResult.resp true (some { response := some "hi there" }))).chatHistory
      = [⟨ChatRole.user, "hello"⟩, ⟨ChatRole.assistant, "hi there"⟩] := by
  have h := (c4_chat_append chatHelloState
      (HttpResult.resp true (some { response := some "hi there" })) rfl).2.2
  simpa [chatHelloState, initialReviewState, HttpResult.json, jsStringOr] using h

/-- A review-page state whose chat input holds one space, which is blank
after trimming but not the empty string. -/
def chatBlankState : ReviewState := { initialReviewState with chatInput := " " }

/-- Claim C9, counterexample.  The claim states that the chat input is
cleared to the empty string after every submit attempt, including
attempts whose input is blank after trimming.  In the code a
blank-after-trimming input returns from the handler before the try block
whose finally clause clears the input, so submitting a single space
leaves the input equal to that space, not the empty string. -/
theorem c9_counterexample :
    (handleChatSubmit chatBlankState
        (HttpResult.resp true (some { response := some "hi" }))).chatInput = " "
    ∧ (" " : String) ≠ "" := by
  refine ⟨rfl, by decide⟩

/-- Claim C9, amended: after every chat submit attempt whose input is
non-blank after trimming, the chat input field is cleared to the empty
string regardless of whether the network call succeeds or fails; a
submit attempt whose input is blank after trimming leaves the whole
state, the input field included, unchanged. -/
theorem c9_chat_input_cleared (s : ReviewState) (res : HttpResult ChatBody) :
    (jsBlank s.chatInput = false → (handleChatSubmit s res).chatInput = "")
    ∧ (jsBlank s.chatInput = true → handleChatSubmit s res = s) := by
  constructor
  · intro h
    rcases hj : res.json with _ | d <;>
      simp [handleChatSubmit, handleChatSubmitStart, handleChatSubmitSettle, h, hj]
  · intro h
    simp [handleChatSubmit, handleChatSubmitStart, h]

/-- Witness for the amended claim C9 at a concrete state and failing
call: submitting hello over a network failure still clears the input. -/
theorem c9_chat_input_cleared_witness :
    (handleChatSubmit chatHelloState HttpResult.netErr).chatInput = "" :=
  (c9_chat_input_cleared chatHelloState HttpResult.netErr).1 rfl

/-- Claim C5: for every non-blank search query, a search call that fails
(network error or malformed JSON) and a search call that succeeds with
an empty or absent results field leave the client in observably
identical state: the full resulting states are equal, the results
collection is empty, and the error message is untouched. -/
theorem c5_search_failure_silent (s : ReviewState)
    (h : jsBlank s.searchInput = false)
    (rFail rEmpty : HttpResult SearchBody)
    (hFail : rFail.json = none)
    (b : SearchBody) (hEmpty : rEmpty.json = some b)
    (hb : b.results = none ∨ b.results = some []) :
    handleSearchSubmit s rFail = handleSearchSubmit s rEmpty
    ∧ (handleSearchSubmit s rFail).searchResults = []
    ∧ (handleSearchSubmit s rFail).error = s.error := by
  rcases hb with hb | hb <;> simp [handleSearchSubmit, h, hFail, hEmpty, hb]

/-- A review-page state whose search input holds the word price. -/
def searchPriceState : ReviewState := { initialReviewState with searchInput := "price" }

/-- Witness for claim C5 at a concrete state: a network failure and a
successful response with an empty results list produce equal states,
with no results and the error message untouched. -/
theorem c5_search_failure_silent_witness :
    handleSearchSubmit searchPriceState HttpResult.netErr
        = handleSearchSubmit searchPriceState
            (HttpResult.resp true (some { results := some [] }))
    ∧ (handleSearchSubmit searchPriceState HttpResult.netErr).searchResults = []
    ∧ (handleSearchSubmit searchPriceState HttpResult.netErr).error
        = searchPriceState.error :=
  c5_search_failure_silent searchPriceState rfl HttpResult.netErr
    (HttpResult.resp true (some { results := some [] })) rfl
    { results := some [] } rfl (Or.inr rfl)

/-- Claim C6: for every search result, activating it when the shared
audio element is ready sets the playback position of that element to the
timestamp value of the result and starts playback; when the audio
element is not ready (unmounted or unsourced, modelled by a null ref),
activating it is a no-op. -/
theorem c6_jump_to_timestamp (r : SearchResult) :
    (∀ a : AudioElement,
      activateSearchResult (some a) r
        = some { currentTime := r.timestamp, playing := true })
    ∧ activateSearchResult none r = none := by
  exact ⟨fun a => rfl, rfl⟩

end CallAuditor
